import Mathlib

/-!
Verification of the binance-weight-exporter repository.

The repository contains two near-duplicate Go programs:

* `src/main.go` — the stateless, fetch-on-scrape exporter: every scrape
  (`Collect`) calls `HitBinanceRestApisAndUpdateMetrics`, which probes the
  upstream endpoint and streams gauges straight from the response headers.
* `src/unnamed/part_000` — the cached (stateful) exporter: the collector
  stores `lastWeight` and `isUp`; `RequestWeight` (the probe) writes them,
  `UpdateMetrics` (the publish path) reads them, and `Collect` dispatches on
  the `auto-scrape` flag (synchronous: probe then publish; asynchronous:
  publish only, a background scheduler probing once a minute).

The embedding below models the probe inputs explicitly: whether
`http.NewRequest` returned an error (a `Bool`), and the transport outcome of
`client.Do` (failure, or a delivered response with its headers and status
code).  `log.Fatal` (process termination) is modelled by `Outcome.fatal`.
-/

/-- Result of the outbound transport call `client.Do(req)`: either a
transport-level error (`err != nil`), or a delivered response carrying its
headers (name/value pairs) and HTTP status code. -/
inductive TransportResult where
  | failure : TransportResult
  | success : List (String × String) → Nat → TransportResult
deriving DecidableEq

/-- Result of running a code path that may call `log.Fatal`:
`fatal` models `log.Fatal` terminating the process, `ok a` a normal return
with result `a`. -/
inductive Outcome (α : Type) where
  | fatal : Outcome α
  | ok : α → Outcome α
deriving DecidableEq

/-- Whether an `Outcome` is the process-terminating case. -/
def Outcome.isFatal {α : Type} : Outcome α → Bool
  | Outcome.fatal => true
  | Outcome.ok _ => false

/-- A gauge observation sent on the metrics channel: the `binance_up`,
`binance_weight_used` and `binance_weight_used_1m` gauges with their value. -/
inductive Metric where
  | up : Nat → Metric
  | weight_used : Nat → Metric
  | weight_used_1m : Nat → Metric
deriving DecidableEq

/-- The ASCII code of a character with upper-case letters folded to lower
case. -/
def lowerCodeOf (c : Char) : Nat :=
  if 65 ≤ c.toNat && c.toNat ≤ 90 then c.toNat + 32 else c.toNat

/-- ASCII-case-insensitive equality of character lists. -/
def eqIgnoreCaseChars : List Char → List Char → Bool
  | [], [] => true
  | a :: as, b :: bs => lowerCodeOf a == lowerCodeOf b && eqIgnoreCaseChars as bs
  | _, _ => false

/-- Go's `resp.Header.Get(key)`: case-insensitive lookup of the first header
with the given name, returning the empty string when absent.  (Go
canonicalises MIME header keys, which for the ASCII keys used here amounts to
case-insensitive matching.) -/
def getHeader (headers : List (String × String)) (key : String) : String :=
  match headers.find? (fun kv => eqIgnoreCaseChars kv.fst.toList key.toList) with
  | some kv => kv.snd
  | none => ""

/-- Whether a header string is a well-formed non-negative decimal number:
the domain on which `strconv.ParseFloat` succeeds for the integer-valued
rate-limit headers modelled here. -/
def parsesAsNumber (s : String) : Bool :=
  !s.toList.isEmpty && s.toList.all (fun d => d.isDigit)

/-- Value of a list of decimal digits. -/
def natOfDigits (l : List Char) : Nat :=
  l.foldl (fun acc d => acc * 10 + (d.toNat - 48)) 0

/-- Models `v, _ := strconv.ParseFloat(s, 64)` as the source uses it on the
rate-limit headers.  The model is exact on its intended domain: on
non-negative decimal integer strings (the values these headers carry,
where `ParseFloat` returns the number) and on strings `ParseFloat` rejects
with a syntax error (where it returns the value `0` that the source keeps
after discarding the error — in particular on the empty string returned for
an absent header).  Other `ParseFloat`-accepted forms (signed, fractional,
exponent, inf/nan, hex floats) fall outside this exact domain and are
mapped to the fallback; theorems whose truth depends on the parsed value
therefore quantify over or hypothesise only header values inside the exact
domain. -/
def parseWeightHeader (s : String) : Nat :=
  if parsesAsNumber s then natOfDigits s.toList else 0

/-- Drops one leading ASCII sign character, as Go's number parsing does. -/
def stripSign (l : List Char) : List Char :=
  match l with
  | c :: rest => if c == '+' || c == '-' then rest else l
  | [] => []

/-- Mantissa part of a decimal floating-point literal, over-approximated:
digits with optional underscores, at most one decimal point, at least one
digit.  (Go additionally requires underscores to separate digits; strings
with misplaced underscores are accepted here, an over-approximation.) -/
def decMantissaOk (l : List Char) : Bool :=
  l.all (fun c => c.isDigit || c == '_' || c == '.') &&
  (l.filter (fun c => c == '.')).length ≤ 1 &&
  l.any (fun c => c.isDigit)

/-- Exponent part following `e`/`E`: optional sign, then digits with
optional underscores, at least one digit. -/
def expPartOk (l : List Char) : Bool :=
  let m := stripSign l
  !m.isEmpty && m.all (fun c => c.isDigit || c == '_') && m.any (fun c => c.isDigit)

/-- Recognizer for the strings accepted by Go's `strconv.ParseFloat`:
an optional sign followed by an `inf`/`infinity`/`nan` form, a hex float,
or a decimal mantissa with an optional `e`/`E` exponent.  The recognizer
deliberately over-approximates on ambiguous corners (every `0x`/`0X`
prefix is accepted whether or not the mandatory `p` exponent follows,
underscore placement is not policed, `nan` is accepted with a sign), so
that its negation is a sound certificate of a `ParseFloat` syntax error —
on every rejected string Go's `ParseFloat` fails and returns the value
`0`.  The all-digit integer case `parsesAsNumber` is listed first; it is
subsumed by the decimal case (digits pass `decMantissaOk` and contain no
exponent character), listed separately so the subsumption is
definitional. -/
def goParseFloatAccepts (s : String) : Bool :=
  parsesAsNumber s ||
  (let l := stripSign s.toList
   eqIgnoreCaseChars l "inf".toList ||
   eqIgnoreCaseChars l "infinity".toList ||
   eqIgnoreCaseChars l "nan".toList ||
   (match l with
    | '0' :: x :: _ => x == 'x' || x == 'X'
    | _ => false) ||
   (match l.span (fun c => !(c == 'e' || c == 'E')) with
    | (m, []) => decMantissaOk m
    | (m, _ :: ex) => decMantissaOk m && expPartOk ex))

namespace Stateless

/-- `src/main.go` `(*WeightCollector).HitBinanceRestApisAndUpdateMetrics`:
`buildErr` says whether `http.NewRequest` failed (then `log.Fatal`), `t` is
the outcome of `client.Do`.  On transport error it emits only `up=0`; on any
delivered response it emits `up=1` and the two weight gauges parsed from the
`x-mbx-used-weight` and `x-mbx-used-weight-1m` headers. -/
def HitBinanceRestApisAndUpdateMetrics (buildErr : Bool) (t : TransportResult) :
    Outcome (List Metric) :=
  if buildErr then Outcome.fatal
  else
    match t with
    | TransportResult.failure => Outcome.ok [Metric.up 0]
    | TransportResult.success headers _ =>
        Outcome.ok
          [Metric.up 1,
           Metric.weight_used (parseWeightHeader (getHeader headers "x-mbx-used-weight")),
           Metric.weight_used_1m (parseWeightHeader (getHeader headers "x-mbx-used-weight-1m"))]

/-- `src/main.go` `(*WeightCollector).Collect`: delegates to
`HitBinanceRestApisAndUpdateMetrics`. -/
def Collect (buildErr : Bool) (t : TransportResult) : Outcome (List Metric) :=
  HitBinanceRestApisAndUpdateMetrics buildErr t

end Stateless

namespace Cached

/-- The mutable fields of `src/unnamed/part_000`'s `WeightCollector`:
`lastWeight` and `isUp` (a `float64` only ever holding `0` or `1`).  The
`prometheus.Desc` pointers and the endpoint string are immutable
configuration and are not modelled. -/
structure WeightCollector where
  lastWeight : Nat
  isUp : Nat
deriving DecidableEq

/-- `src/unnamed/part_000` `NewCollector`: the initial collector state,
`lastWeight = 0`, `isUp = 0`. -/
def NewCollector : WeightCollector :=
  { lastWeight := 0, isUp := 0 }

/-- `src/unnamed/part_000` `(*WeightCollector).RequestWeight`: `buildErr`
says whether `http.NewRequest` failed (then `log.Fatal`).  On transport
error it sets `isUp = 0` and returns, leaving `lastWeight` untouched; on a
delivered response it sets `isUp = 1` and stores the parse of the
`x-mbx-used-weight-1m` header into `lastWeight`. -/
def RequestWeight (c : WeightCollector) (buildErr : Bool) (t : TransportResult) :
    Outcome WeightCollector :=
  if buildErr then Outcome.fatal
  else
    match t with
    | TransportResult.failure => Outcome.ok { c with isUp := 0 }
    | TransportResult.success headers _ =>
        Outcome.ok
          { lastWeight := parseWeightHeader (getHeader headers "x-mbx-used-weight-1m"),
            isUp := 1 }

/-- `src/unnamed/part_000` `(*WeightCollector).UpdateMetrics`: if `isUp == 0`
it emits only `up=0` and returns; otherwise it emits `up=1` and both weight
gauges, each with the value `lastWeight`. -/
def UpdateMetrics (c : WeightCollector) : List Metric :=
  if c.isUp == 0 then [Metric.up 0]
  else
    [Metric.up 1,
     Metric.weight_used c.lastWeight,
     Metric.weight_used_1m c.lastWeight]

/-- `src/unnamed/part_000` `(*WeightCollector).Collect`: when `auto-scrape`
is disabled (synchronous mode) it first calls `RequestWeight` and then
`UpdateMetrics`; when enabled (asynchronous mode) it only calls
`UpdateMetrics` on the cached state.  Returns the collector state after the
call alongside the emitted gauges. -/
def Collect (autoScrape : Bool) (c : WeightCollector) (buildErr : Bool)
    (t : TransportResult) : Outcome (WeightCollector × List Metric) :=
  if !autoScrape then
    match RequestWeight c buildErr t with
    | Outcome.fatal => Outcome.fatal
    | Outcome.ok c2 => Outcome.ok (c2, UpdateMetrics c2)
  else
    Outcome.ok (c, UpdateMetrics c)

/-- A run of `n` consecutive scrapes in asynchronous mode with no
intervening background probe: each scrape is a `Collect` with
`auto-scrape` enabled, threading the collector state.  Returns the list of
emitted gauge sequences and the final state. -/
def scrapeRun : Nat → WeightCollector → Bool → TransportResult →
    List (List Metric) × WeightCollector
  | 0, c, _, _ => ([], c)
  | n + 1, c, b, t =>
    match Collect true c b t with
    | Outcome.fatal => ([], c)
    | Outcome.ok (c2, ms) =>
        let r := scrapeRun n c2 b t
        (ms :: r.fst, r.snd)

end Cached

/-- C1 counterexample: with headers `x-mbx-used-weight=5` and
`x-mbx-used-weight-1m=7`, a successful probe in the cached variant makes the
next scrape emit `weight_used=7` — the parse of `x-mbx-used-weight-1m` — and
not `weight_used=5`, the value of `x-mbx-used-weight`, so the claim fails in
that variant. -/
theorem C1_counterexample :
    Cached.Collect false Cached.NewCollector false
        (TransportResult.success [("x-mbx-used-weight", "5"), ("x-mbx-used-weight-1m", "7")] 200) =
      Outcome.ok ({ lastWeight := 7, isUp := 1 },
        [Metric.up 1, Metric.weight_used 7, Metric.weight_used_1m 7]) ∧
    parseWeightHeader
        (getHeader [("x-mbx-used-weight", "5"), ("x-mbx-used-weight-1m", "7")] "x-mbx-used-weight") = 5 ∧
    ((7 : Nat) == 5) = false :=
  ⟨by decide, by decide, by decide⟩

/-- C1 (amended): on a successful probe carrying the two headers with values
W and M, the stateless program's next scrape emits `up=1, weight_used=W,
weight_used_1m=M`; the cached program — in the synchronous mode, and in the
asynchronous mode after the background probe — emits `up=1` and both weight
gauges equal to M, since only `x-mbx-used-weight-1m` is read. -/
theorem C1_amended_success_emission (hs : List (String × String)) (code : Nat)
    (c : Cached.WeightCollector) (b : Bool) (t : TransportResult) :
    Stateless.Collect false (TransportResult.success hs code) =
      Outcome.ok
        [Metric.up 1,
         Metric.weight_used (parseWeightHeader (getHeader hs "x-mbx-used-weight")),
         Metric.weight_used_1m (parseWeightHeader (getHeader hs "x-mbx-used-weight-1m"))] ∧
    Cached.Collect false c false (TransportResult.success hs code) =
      Outcome.ok
        ({ lastWeight := parseWeightHeader (getHeader hs "x-mbx-used-weight-1m"), isUp := 1 },
         [Metric.up 1,
          Metric.weight_used (parseWeightHeader (getHeader hs "x-mbx-used-weight-1m")),
          Metric.weight_used_1m (parseWeightHeader (getHeader hs "x-mbx-used-weight-1m"))]) ∧
    Cached.RequestWeight c false (TransportResult.success hs code) =
      Outcome.ok
        { lastWeight := parseWeightHeader (getHeader hs "x-mbx-used-weight-1m"), isUp := 1 } ∧
    Cached.Collect true
        { lastWeight := parseWeightHeader (getHeader hs "x-mbx-used-weight-1m"), isUp := 1 } b t =
      Outcome.ok
        ({ lastWeight := parseWeightHeader (getHeader hs "x-mbx-used-weight-1m"), isUp := 1 },
         [Metric.up 1,
          Metric.weight_used (parseWeightHeader (getHeader hs "x-mbx-used-weight-1m")),
          Metric.weight_used_1m (parseWeightHeader (getHeader hs "x-mbx-used-weight-1m"))]) :=
  ⟨rfl, rfl, rfl, rfl⟩

/-- C2: after a probe whose transport call fails, the next scrape emits only
`up=0` and no weight gauges, whatever the previously cached weight value —
in the stateless program, in the cached program's synchronous mode, and in
its asynchronous mode after the failed background probe. -/
theorem C2_transport_failure_up_only (c : Cached.WeightCollector) (b : Bool)
    (t : TransportResult) :
    Stateless.Collect false TransportResult.failure = Outcome.ok [Metric.up 0] ∧
    Cached.Collect false c false TransportResult.failure =
      Outcome.ok ({ lastWeight := c.lastWeight, isUp := 0 }, [Metric.up 0]) ∧
    Cached.RequestWeight c false TransportResult.failure =
      Outcome.ok { lastWeight := c.lastWeight, isUp := 0 } ∧
    Cached.Collect true { lastWeight := c.lastWeight, isUp := 0 } b t =
      Outcome.ok ({ lastWeight := c.lastWeight, isUp := 0 }, [Metric.up 0]) :=
  ⟨rfl, rfl, rfl, rfl⟩

/-- C3: in the cached variant, a probe whose transport call errors sets
`isUp` to 0 and leaves `lastWeight` exactly as it was — the failure mutates
only the reachability field. -/
theorem C3_failure_preserves_weight (c : Cached.WeightCollector) :
    Cached.RequestWeight c false TransportResult.failure =
      Outcome.ok { lastWeight := c.lastWeight, isUp := 0 } := rfl

/-- C4: the probe result never depends on the HTTP status code of a
delivered response; every delivered response (2xx or not) yields `isUp = 1`
in the cached variant and an emission starting with `up=1` in both
variants. -/
theorem C4_status_code_ignored (c : Cached.WeightCollector) (w : Nat)
    (hs : List (String × String)) (code code2 : Nat) :
    Cached.RequestWeight c false (TransportResult.success hs code) =
      Cached.RequestWeight c false (TransportResult.success hs code2) ∧
    Stateless.Collect false (TransportResult.success hs code) =
      Stateless.Collect false (TransportResult.success hs code2) ∧
    Cached.RequestWeight c false (TransportResult.success hs code) =
      Outcome.ok
        { lastWeight := parseWeightHeader (getHeader hs "x-mbx-used-weight-1m"), isUp := 1 } ∧
    Cached.UpdateMetrics { lastWeight := w, isUp := 1 } =
      Metric.up 1 :: [Metric.weight_used w, Metric.weight_used_1m w] ∧
    Stateless.Collect false (TransportResult.success hs code) =
      Outcome.ok
        (Metric.up 1 ::
          [Metric.weight_used (parseWeightHeader (getHeader hs "x-mbx-used-weight")),
           Metric.weight_used_1m (parseWeightHeader (getHeader hs "x-mbx-used-weight-1m"))]) :=
  ⟨rfl, rfl, rfl, rfl, rfl⟩

/-- C5 counterexample: a probe in which building the upstream request fails
(`http.NewRequest` returns an error) reaches `log.Fatal` and terminates the
process, in both programs — refuting that any failure in building or
executing the request is handled locally. -/
theorem C5_counterexample :
    Cached.RequestWeight Cached.NewCollector true TransportResult.failure = Outcome.fatal ∧
    Stateless.HitBinanceRestApisAndUpdateMetrics true TransportResult.failure = Outcome.fatal :=
  ⟨rfl, rfl⟩

/-- C5 (amended): failures in executing the upstream request (transport
errors) are handled locally — the probe returns normally, reflecting the
failure only in the state/`up` gauge — and never terminate the process; but
a failure in building the request terminates the process via `log.Fatal` in
both programs, like a fatal startup error. -/
theorem C5_amended_exit_behavior (c : Cached.WeightCollector) (t : TransportResult) :
    (Cached.RequestWeight c false t).isFatal = false ∧
    Cached.RequestWeight c false TransportResult.failure =
      Outcome.ok { lastWeight := c.lastWeight, isUp := 0 } ∧
    (Cached.RequestWeight c true t).isFatal = true ∧
    (Stateless.Collect false t).isFatal = false ∧
    (Stateless.HitBinanceRestApisAndUpdateMetrics true t).isFatal = true := by
  refine ⟨?_, rfl, rfl, ?_, rfl⟩
  · cases t <;> rfl
  · cases t <;> rfl

/-- C6: scheduling-mode dispatch of `Collect` in the cached program — with
`auto-scrape` enabled, `Collect` never probes: it returns the state
unchanged with `UpdateMetrics` of it, independently of any probe inputs;
with `auto-scrape` disabled, `Collect` probes first and publishes
`UpdateMetrics` of the post-probe state. -/
theorem C6_scheduling_dispatch (c : Cached.WeightCollector) (b b2 : Bool)
    (t t2 : TransportResult) (hs : List (String × String)) (code : Nat) :
    Cached.Collect true c b t = Outcome.ok (c, Cached.UpdateMetrics c) ∧
    Cached.Collect true c b t = Cached.Collect true c b2 t2 ∧
    Cached.Collect false c false TransportResult.failure =
      Outcome.ok ({ lastWeight := c.lastWeight, isUp := 0 },
        Cached.UpdateMetrics { lastWeight := c.lastWeight, isUp := 0 }) ∧
    Cached.Collect false c false (TransportResult.success hs code) =
      Outcome.ok
        ({ lastWeight := parseWeightHeader (getHeader hs "x-mbx-used-weight-1m"), isUp := 1 },
         Cached.UpdateMetrics
           { lastWeight := parseWeightHeader (getHeader hs "x-mbx-used-weight-1m"), isUp := 1 }) :=
  ⟨rfl, rfl, rfl, rfl⟩

/-- C7: the freshly constructed collector has `isUp = 0` and `lastWeight = 0`,
and a scrape that reads it without probing (asynchronous mode) emits only
`up=0`. -/
theorem C7_initial_state (b : Bool) (t : TransportResult) :
    Cached.NewCollector = { lastWeight := 0, isUp := 0 } ∧
    Cached.UpdateMetrics Cached.NewCollector = [Metric.up 0] ∧
    Cached.Collect true Cached.NewCollector b t =
      Outcome.ok (Cached.NewCollector, [Metric.up 0]) :=
  ⟨rfl, rfl, rfl⟩

/-- C8: in asynchronous mode a scrape returns the collector state unchanged,
so a run of n consecutive scrapes with no intervening probe emits the same
gauge sequence n times over. -/
theorem C8_async_scrapes_idempotent (c : Cached.WeightCollector) (b : Bool)
    (t : TransportResult) (n : Nat) :
    Cached.Collect true c b t = Outcome.ok (c, Cached.UpdateMetrics c) ∧
    Cached.scrapeRun n c b t = (List.replicate n (Cached.UpdateMetrics c), c) := by
  refine ⟨rfl, ?_⟩
  induction n with
  | zero => rfl
  | succ n ih =>
      have hstep : Cached.scrapeRun (n + 1) c b t =
          (Cached.UpdateMetrics c :: (Cached.scrapeRun n c b t).fst,
           (Cached.scrapeRun n c b t).snd) := rfl
      rw [hstep, ih]
      rfl

/-- Set-up for C9: a header value that `goParseFloatAccepts` rejects is one
Go's `ParseFloat` fails on returning `0`, and the embedding's parse agrees:
the stored weight is `0`. -/
theorem parseWeightHeader_eq_zero_of_rejected (s : String)
    (h : goParseFloatAccepts s = false) : parseWeightHeader s = 0 := by
  unfold parseWeightHeader
  cases hp : parsesAsNumber s
  · simp
  · exfalso
    have ha : goParseFloatAccepts s = true := by simp [goParseFloatAccepts, hp]
    rw [ha] at h
    exact Bool.noConfusion h

/-- C9: on a successful probe, each rate-limit header that is absent (the
lookup yields the empty string) or whose value `strconv.ParseFloat` rejects
makes the corresponding weight field `0` with no error surfaced — the
scrape still reports `up=1` with that gauge zeroed, whatever the other
header holds; in the cached program both gauges stem from
`x-mbx-used-weight-1m`, so its failure zeroes both. -/
theorem C9_parse_fallback (hs : List (String × String)) (code : Nat)
    (c : Cached.WeightCollector) :
    (goParseFloatAccepts (getHeader hs "x-mbx-used-weight") = false →
      ∃ v, Stateless.Collect false (TransportResult.success hs code) =
        Outcome.ok [Metric.up 1, Metric.weight_used 0, Metric.weight_used_1m v]) ∧
    (goParseFloatAccepts (getHeader hs "x-mbx-used-weight-1m") = false →
      (∃ w, Stateless.Collect false (TransportResult.success hs code) =
        Outcome.ok [Metric.up 1, Metric.weight_used w, Metric.weight_used_1m 0]) ∧
      Cached.Collect false c false (TransportResult.success hs code) =
        Outcome.ok ({ lastWeight := 0, isUp := 1 },
          [Metric.up 1, Metric.weight_used 0, Metric.weight_used_1m 0])) := by
  constructor
  · intro h1
    have p1 := parseWeightHeader_eq_zero_of_rejected _ h1
    exact ⟨parseWeightHeader (getHeader hs "x-mbx-used-weight-1m"),
      by simp [Stateless.Collect, Stateless.HitBinanceRestApisAndUpdateMetrics, p1]⟩
  · intro h2
    have p2 := parseWeightHeader_eq_zero_of_rejected _ h2
    constructor
    · exact ⟨parseWeightHeader (getHeader hs "x-mbx-used-weight"),
        by simp [Stateless.Collect, Stateless.HitBinanceRestApisAndUpdateMetrics, p2]⟩
    · simp [Cached.Collect, Cached.RequestWeight, Cached.UpdateMetrics, p2]

/-- C9 witness: on a response whose `x-mbx-used-weight` header is absent and
whose `x-mbx-used-weight-1m` header holds the unparsable value "abc", both
hypotheses hold and the scrapes report `up=1` with the corresponding gauges
zeroed. -/
theorem C9_parse_fallback_witness :
    goParseFloatAccepts (getHeader [("x-mbx-used-weight-1m", "abc")] "x-mbx-used-weight") = false ∧
    goParseFloatAccepts (getHeader [("x-mbx-used-weight-1m", "abc")] "x-mbx-used-weight-1m") = false ∧
    (∃ v, Stateless.Collect false (TransportResult.success [("x-mbx-used-weight-1m", "abc")] 404) =
       Outcome.ok [Metric.up 1, Metric.weight_used 0, Metric.weight_used_1m v]) ∧
    Cached.Collect false Cached.NewCollector false
        (TransportResult.success [("x-mbx-used-weight-1m", "abc")] 404) =
      Outcome.ok ({ lastWeight := 0, isUp := 1 },
        [Metric.up 1, Metric.weight_used 0, Metric.weight_used_1m 0]) :=
  ⟨by decide, by decide,
   (C9_parse_fallback [("x-mbx-used-weight-1m", "abc")] 404 Cached.NewCollector).1 (by decide),
   ((C9_parse_fallback [("x-mbx-used-weight-1m", "abc")] 404 Cached.NewCollector).2
     (by decide)).2⟩

/-- C10: in the cached variant the weight gauges, whenever emitted, both
carry the single stored value `lastWeight`; and a probe's result depends on
the response headers only through `x-mbx-used-weight-1m` — two responses
agreeing on that header are indistinguishable, so the legacy
`x-mbx-used-weight` header is never read. -/
theorem C10_single_weight_source (c : Cached.WeightCollector) (b : Bool)
    (hs hs2 : List (String × String)) (code code2 : Nat)
    (h : getHeader hs "x-mbx-used-weight-1m" = getHeader hs2 "x-mbx-used-weight-1m") :
    (Cached.UpdateMetrics c = [Metric.up 0] ∨
     Cached.UpdateMetrics c =
       [Metric.up 1, Metric.weight_used c.lastWeight, Metric.weight_used_1m c.lastWeight]) ∧
    Cached.RequestWeight c b (TransportResult.success hs code) =
      Cached.RequestWeight c b (TransportResult.success hs2 code2) ∧
    Cached.RequestWeight c false (TransportResult.success hs code) =
      Outcome.ok
        { lastWeight := parseWeightHeader (getHeader hs "x-mbx-used-weight-1m"), isUp := 1 } := by
  refine ⟨?_, ?_, rfl⟩
  · cases hu : (c.isUp == 0) <;> simp [Cached.UpdateMetrics, hu]
  · cases b
    · simp [Cached.RequestWeight, h]
    · rfl

/-- C10 witness: two responses agreeing on `x-mbx-used-weight-1m` (up to
header-name case) but differing on the legacy header produce the same probe
result, and the emitted weight gauges coincide. -/
theorem C10_single_weight_source_witness :
    getHeader [("x-mbx-used-weight", "5"), ("x-mbx-used-weight-1m", "7")] "x-mbx-used-weight-1m" =
      getHeader [("X-MBX-USED-WEIGHT-1M", "7")] "x-mbx-used-weight-1m" ∧
    ((Cached.UpdateMetrics Cached.NewCollector = [Metric.up 0] ∨
      Cached.UpdateMetrics Cached.NewCollector =
        [Metric.up 1, Metric.weight_used Cached.NewCollector.lastWeight,
         Metric.weight_used_1m Cached.NewCollector.lastWeight]) ∧
     Cached.RequestWeight Cached.NewCollector false
         (TransportResult.success [("x-mbx-used-weight", "5"), ("x-mbx-used-weight-1m", "7")] 200) =
       Cached.RequestWeight Cached.NewCollector false
         (TransportResult.success [("X-MBX-USED-WEIGHT-1M", "7")] 503) ∧
     Cached.RequestWeight Cached.NewCollector false
         (TransportResult.success [("x-mbx-used-weight", "5"), ("x-mbx-used-weight-1m", "7")] 200) =
       Outcome.ok
         { lastWeight :=
             parseWeightHeader
               (getHeader [("x-mbx-used-weight", "5"), ("x-mbx-used-weight-1m", "7")]
                 "x-mbx-used-weight-1m"),
           isUp := 1 }) :=
  ⟨by decide,
   C10_single_weight_source Cached.NewCollector false
     [("x-mbx-used-weight", "5"), ("x-mbx-used-weight-1m", "7")]
     [("X-MBX-USED-WEIGHT-1M", "7")] 200 503 (by decide)⟩
